import Mathlib

/-!
Verification development for the onboardai code-analysis engine
(src/code_analyzer.py and src/database/sqlite_manager.py).

The Python source walks a tree-sitter concrete syntax tree, extracts
parameters, variables, functions, classes and call edges, and persists
them through a database-manager object.  This file gives a shallow
embedding of that code:

* `TSNode` models a tree-sitter node.  `_get_node_text` slices the source
  bytes by the node's byte span; the model stores each node's source
  slice directly in the `text` field.  The cursor walk over
  `goto_first_child` / `goto_next_sibling` visits the `children` list in
  order; `named_children` filters the named ones and
  `child_by_field_name` finds the first child carrying a field name.
* The extraction passes (`extract_parameters`, `extract_variables`,
  `extract_function_calls`, `visit_function_definition`,
  `visit_class_definition`, `run_extraction`, `analyze_code`) are
  translated line by line from CodeAnalyzer.  The database manager is an
  explicit record of operations (`Db`) threaded through a state, and
  `sqliteDb` instantiates it with the behavior of SQLiteManager
  (UNIQUE path constraint on Files, autoincrement ids, all inserts
  failing without a connection).
* `hashlib.md5(...).hexdigest()` and `datetime.now().isoformat()` are
  external; `analyze_code` takes the hash function and the timestamp as
  parameters.
-/

/-- Information about a function parameter (dataclass ParameterInfo).
The source field named for the type annotation is called `typeAnn` here. -/
structure ParameterInfo where
  name : String
  default_value : Option String
  typeAnn : Option String
deriving DecidableEq, Repr

/-- Information about a variable definition/assignment (dataclass VariableInfo). -/
structure VariableInfo where
  name : String
  value : Option String
  typeAnn : Option String
  is_global : Bool
  is_class_attribute : Bool
  is_function_local : Bool
  defined_at_line : Int
  parent_scope : Option String
deriving DecidableEq, Repr

/-- Information about a function (dataclass FunctionInfo).  The dataclass
field named after the local variables is called `local_variables` here,
because `variables` is a reserved command name in Lean. -/
structure FunctionInfo where
  name : String
  start_line : Nat
  end_line : Nat
  parameters : List ParameterInfo
  docstring : Option String
  body : Option String
  local_variables : List VariableInfo
  calls_made : List String
deriving DecidableEq, Repr

/-- Information about a class (dataclass ClassInfo). -/
structure ClassInfo where
  name : String
  start_line : Nat
  end_line : Nat
  docstring : Option String
  methods : List FunctionInfo
  body : Option String
  attributes : List VariableInfo
deriving DecidableEq, Repr

/-- Aggregated results of the code analysis (dataclass AnalysisResults). -/
structure AnalysisResults where
  file_path : String
  module_docstring : Option String
  top_level_variables : List VariableInfo
  functions : List FunctionInfo
  classes : List ClassInfo
deriving DecidableEq, Repr

/-- A tree-sitter syntax-tree node: node type, named flag, the field name
this node carries relative to its parent, start/end row of its span, the
source text covered by its byte span, and its children in order (named
and anonymous alike). -/
inductive TSNode : Type where
  | mk (ty : String) (isNamed : Bool) (fieldName : Option String)
       (startRow : Nat) (endRow : Nat) (text : String)
       (children : List TSNode) : TSNode

@[simp] def TSNode.ty : TSNode → String
  | .mk t _ _ _ _ _ _ => t

@[simp] def TSNode.isNamed : TSNode → Bool
  | .mk _ b _ _ _ _ _ => b

@[simp] def TSNode.fieldName : TSNode → Option String
  | .mk _ _ f _ _ _ _ => f

@[simp] def TSNode.startRow : TSNode → Nat
  | .mk _ _ _ s _ _ _ => s

@[simp] def TSNode.endRow : TSNode → Nat
  | .mk _ _ _ _ e _ _ => e

@[simp] def TSNode.text : TSNode → String
  | .mk _ _ _ _ _ x _ => x

@[simp] def TSNode.children : TSNode → List TSNode
  | .mk _ _ _ _ _ _ cs => cs

/-- The `named_children` property: children that are named nodes. -/
def TSNode.namedChildren (n : TSNode) : List TSNode :=
  n.children.filter (fun c => c.isNamed)

/-- The `named_child(i)` accessor. -/
def TSNode.namedChild (n : TSNode) (i : Nat) : Option TSNode :=
  n.namedChildren.get? i

/-- The `child_by_field_name(f)` accessor: first child whose field name is `f`. -/
def TSNode.childByField (n : TSNode) (f : String) : Option TSNode :=
  n.children.find? (fun c => c.fieldName == some f)

/-- Models `_get_node_text`: the source slice covered by the node's byte span. -/
def get_node_text (n : TSNode) : String := n.text

/-- The two language front ends selected by `language_name` in CodeAnalyzer. -/
inductive Lang : Type where
  | python
  | javascript
deriving DecidableEq, Repr

/-- The analyzer configuration fixed at construction: `self.language` and
`self.file_extension`. -/
structure Cfg where
  language : Lang
  file_extension : Option String
deriving DecidableEq, Repr

/-- Python str.strip with the two quote characters, as used on docstrings:
removes every leading and trailing double- or single-quote character. -/
def stripQuotes (s : String) : String :=
  let isQuote : Char → Bool := fun c => c == Char.ofNat 34 || c == Char.ofNat 39
  let cs := (s.toList.dropWhile isQuote).reverse.dropWhile isQuote
  String.mk cs.reverse

/-- Classification of one named child of the parameter-list node: the body
of the for-loop of `_extract_parameters` (each branch appends at most one
ParameterInfo).  Branches follow the source's if/elif chain in order. -/
def paramOfChild (cfg : Cfg) (child : TSNode) : Option ParameterInfo :=
  if child.ty == "identifier" then
    some ⟨get_node_text child, none, none⟩
  else if child.ty == "default_parameter" && cfg.language == Lang.python then
    match child.childByField "name" with
    | some name_node =>
        some ⟨get_node_text name_node,
              (child.childByField "value").map get_node_text, none⟩
    | none => none
  else if (child.ty == "typed_parameter" || child.ty == "typed_default_parameter")
          && cfg.language == Lang.python then
    -- iterate child.children, each matching sub-child overwriting its slot
    let acc := child.children.foldl
      (fun (a : Option String × Option String × Option String) sub =>
        if sub.ty == "identifier" then (some (get_node_text sub), a.2.1, a.2.2)
        else if sub.ty == "type" then (a.1, some (get_node_text sub), a.2.2)
        else if sub.ty == "default" then (a.1, a.2.1, some (get_node_text sub))
        else a)
      (none, none, none)
    match acc.1 with
    | some nm => some ⟨nm, acc.2.2, acc.2.1⟩
    | none => none
  else if child.ty == "parameter" && cfg.language == Lang.javascript then
    let acc := child.namedChildren.foldl
      (fun (a : Option String × Option String) sub =>
        if sub.ty == "identifier" then (some (get_node_text sub), a.2)
        else if sub.ty == "type_annotation" then (a.1, (sub.namedChild 0).map get_node_text)
        else a)
      (none, none)
    match acc.1 with
    | some nm => some ⟨nm, none, acc.2⟩
    | none => none
  else if child.ty == "required_parameter" && cfg.language == Lang.javascript
          && cfg.file_extension == some "ts" then
    let acc := child.namedChildren.foldl
      (fun (a : Option String × Option String × Option String) sub =>
        if sub.ty == "identifier" then (some (get_node_text sub), a.2.1, a.2.2)
        else if sub.ty == "type_annotation" then (a.1, (sub.namedChild 0).map get_node_text, a.2.2)
        else if sub.ty == "number" || sub.ty == "string" || sub.ty == "identifier" then
          (a.1, a.2.1, some (get_node_text sub))
        else a)
      (none, none, none)
    match acc.1 with
    | some nm => some ⟨nm, acc.2.2, acc.2.1⟩
    | none => none
  else if child.ty == "optional_parameter" && cfg.language == Lang.javascript
          && cfg.file_extension == some "ts" then
    let acc := child.namedChildren.foldl
      (fun (a : Option String × Option String × Option String) sub =>
        if sub.ty == "identifier" then (some (get_node_text sub), a.2.1, a.2.2)
        else if sub.ty == "type_annotation" then (a.1, (sub.namedChild 0).map get_node_text, a.2.2)
        else if sub.ty == "assignment_expression" then
          (a.1, a.2.1, (sub.childByField "right").map get_node_text)
        else a)
      (none, none, none)
    match acc.1 with
    | some nm => some ⟨nm, acc.2.2, acc.2.1⟩
    | none => none
  else if (child.ty == "positional_wildcard_parameter" || child.ty == "keyword_wildcard_parameter")
          && cfg.language == Lang.python then
    match child.childByField "name" with
    | some name_node => some ⟨get_node_text name_node, none, none⟩
    | none => none
  else
    none

/-- Models `_extract_parameters`: iterate the named children of the node's
parameters field and classify each one. -/
def extract_parameters (cfg : Cfg) (func_node : TSNode) : List ParameterInfo :=
  match func_node.childByField "parameters" with
  | some parameters_node => parameters_node.namedChildren.filterMap (paramOfChild cfg)
  | none => []

/-- The value lookup of the annotated-assignment branch of
`_extract_variables` (lines 234-239): scan the children for the first
assignment operator token and take the text of the child right after it. -/
def valueAfterEq : List TSNode → Option String
  | [] => none
  | c :: rest => if c.ty == "=" then rest.head?.map get_node_text else valueAfterEq rest

/-- The Python direct branch of `_extract_variables` for one child node:
an expression statement wrapping an assignment to a bare identifier that
has not been seen in this call yields one VariableInfo. -/
def pyAssignVar (is_global is_class_attribute is_function_local : Bool)
    (node : TSNode) (seen : List String) : Option VariableInfo :=
  if node.ty == "expression_statement" then
    match node.namedChild 0 with
    | some expression_node =>
      if expression_node.ty == "assignment" then
        match expression_node.namedChild 0 with
        | some name_node =>
          if name_node.ty == "identifier" then
            if seen.contains (get_node_text name_node) then none
            else if expression_node.namedChildren.length ≥ 3
                    && ((expression_node.namedChild 1).map TSNode.ty == some "type") then
              some ⟨get_node_text name_node,
                    valueAfterEq expression_node.children,
                    (expression_node.namedChild 1).map get_node_text,
                    is_global, is_class_attribute, is_function_local,
                    (name_node.startRow : Int) + 1, none⟩
            else
              some ⟨get_node_text name_node,
                    (if expression_node.namedChildren.length > 1
                     then expression_node.namedChild 1 else none).map get_node_text,
                    none,
                    is_global, is_class_attribute, is_function_local,
                    (name_node.startRow : Int) + 1, none⟩
          else none
        | none => none
      else none
    | none => none
  else none

/-- The JavaScript declaration branch of `_extract_variables` for one
`variable_declaration` / `lexical_declaration` node: walk its declarators,
recording each unseen name whose value exists and is not an arrow
function.  Returns the recorded variables and the grown seen list. -/
def jsDeclVars (is_global is_class_attribute is_function_local : Bool)
    (node : TSNode) (seen : List String) : List VariableInfo × List String :=
  node.namedChildren.foldl
    (fun (a : List VariableInfo × List String) declarator =>
      if declarator.ty == "variable_declarator" then
        match declarator.childByField "name" with
        | some name_node =>
          if a.2.contains (get_node_text name_node) then a
          else
            match declarator.childByField "value" with
            | some value_node =>
              if value_node.ty == "arrow_function" then a
              else
                (a.1 ++ [⟨get_node_text name_node,
                          some (get_node_text value_node),
                          ((declarator.children.find? (fun c => c.ty == "type_annotation")).bind
                            (fun c => c.namedChild 0)).map get_node_text,
                          is_global, is_class_attribute, is_function_local,
                          (name_node.startRow : Int) + 1, none⟩],
                 a.2 ++ [get_node_text name_node])
            | none => a
        | none => a
      else a)
    ([], seen)

/-- The JavaScript `public_field_definition` branch of `_extract_variables`
for one child node (only taken when extracting class attributes). -/
def jsFieldVar (is_global is_class_attribute is_function_local : Bool)
    (node : TSNode) (seen : List String) : Option VariableInfo :=
  match node.childByField "name" with
  | some name_node =>
    if seen.contains (get_node_text name_node) then none
    else
      some ⟨get_node_text name_node,
            (node.childByField "value").map get_node_text,
            ((node.children.find? (fun c => c.ty == "type_annotation")).bind
              (fun c => c.namedChild 0)).map get_node_text,
            is_global, is_class_attribute, is_function_local,
            (name_node.startRow : Int) + 1, none⟩
  | none => none

/-- The direct (non-recursive) contribution of one child node in
`_extract_variables`, together with the updated seen-names list.  Names
enter the seen list exactly when a variable is recorded. -/
def directVars (cfg : Cfg) (is_global is_class_attribute is_function_local : Bool)
    (node : TSNode) (seen : List String) : List VariableInfo × List String :=
  if cfg.language == Lang.python then
    match pyAssignVar is_global is_class_attribute is_function_local node seen with
    | some v => ([v], seen ++ [v.name])
    | none => ([], seen)
  else if (node.ty == "variable_declaration" || node.ty == "lexical_declaration")
          && cfg.language == Lang.javascript then
    jsDeclVars is_global is_class_attribute is_function_local node seen
  else if node.ty == "public_field_definition" && cfg.language == Lang.javascript
          && is_class_attribute then
    match jsFieldVar is_global is_class_attribute is_function_local node seen with
    | some v => ([v], seen ++ [v.name])
    | none => ([], seen)
  else ([], seen)

/-- The recursion guard of `_extract_variables` (lines 310-314): whether the
pass descends into this child node as part of the same scope.  Note the
Python guard skips function and class definitions only when `is_global`. -/
def recurseIntoVars (cfg : Cfg) (is_global : Bool) (node : TSNode) : Bool :=
  if cfg.language == Lang.python then
    node.ty != "assignment" && node.ty != "annotated_assignment" &&
      (!is_global || (node.ty != "function_definition" && node.ty != "class_definition"))
  else
    node.ty != "variable_declaration" && node.ty != "lexical_declaration" &&
      node.ty != "function_declaration" && node.ty != "class_declaration" &&
      node.ty != "method_definition" && node.ty != "public_field_definition" &&
      node.ty != "arrow_function"

/-- The cursor loop of `_extract_variables` over a scope node's children:
skip unparseable fragments, record the direct contribution of each child,
then descend into the child (with a fresh seen list, as each recursive
Python call makes a new `seen_variables` set) and continue with the
siblings. -/
def extractVarsLoop (cfg : Cfg) (is_global is_class_attribute is_function_local : Bool) :
    List TSNode → List String → List VariableInfo
  | [], _ => []
  | TSNode.mk t nm fl sr er tx cs :: rest, seen =>
    let node := TSNode.mk t nm fl sr er tx cs
    if node.ty == "ERROR" then
      extractVarsLoop cfg is_global is_class_attribute is_function_local rest seen
    else
      let d := directVars cfg is_global is_class_attribute is_function_local node seen
      d.1 ++
        (if recurseIntoVars cfg is_global node then
          extractVarsLoop cfg is_global is_class_attribute is_function_local cs []
        else []) ++
        extractVarsLoop cfg is_global is_class_attribute is_function_local rest d.2

/-- Models `_extract_variables` on a scope node. -/
def extract_variables (cfg : Cfg) (is_global is_class_attribute is_function_local : Bool)
    (scope_node : TSNode) : List VariableInfo :=
  extractVarsLoop cfg is_global is_class_attribute is_function_local scope_node.children []

/-- The cursor loop of `_extract_function_calls` over a node's children:
skip unparseable fragments, record a call-expression's callee name (a bare
identifier, or the final attribute of a member access), then descend into
the child unless it starts a new function/class/lambda scope. -/
def extractCallsLoop (cfg : Cfg) : List TSNode → List String
  | [] => []
  | TSNode.mk t nm fl sr er tx cs :: rest =>
    let node := TSNode.mk t nm fl sr er tx cs
    if node.ty == "ERROR" then extractCallsLoop cfg rest
    else
      (if node.ty == "call" || (cfg.language == Lang.javascript && node.ty == "call_expression") then
        match node.childByField "function" with
        | some function_node =>
          if function_node.ty == "identifier" then [get_node_text function_node]
          else if function_node.ty == "member_expression" && cfg.language == Lang.javascript then
            match function_node.childByField "property" with
            | some attribute_name_node => [get_node_text attribute_name_node]
            | none => []
          else if function_node.ty == "attribute" && cfg.language == Lang.python then
            match function_node.childByField "attribute" with
            | some attribute_name_node => [get_node_text attribute_name_node]
            | none => []
          else []
        | none => []
      else []) ++
      (if (cfg.language == Lang.python
            && node.ty != "function_definition" && node.ty != "class_definition"
            && node.ty != "lambda")
          || (cfg.language == Lang.javascript
            && node.ty != "function_declaration" && node.ty != "class_declaration"
            && node.ty != "arrow_function" && node.ty != "method_definition") then
        extractCallsLoop cfg cs
      else []) ++
      extractCallsLoop cfg rest

/-- Set-style deduplication of a name list, keeping first occurrences. -/
def dedupKeepFirst : List String → List String → List String
  | [], _ => []
  | x :: rest, seen =>
    if seen.contains x then dedupKeepFirst rest seen
    else x :: dedupKeepFirst rest (x :: seen)

/-- Models `_extract_function_calls` on a node.  The source finishes with
`list(set(calls))`, whose ordering Python leaves unspecified; the model
deduplicates keeping the first occurrence of each name. -/
def extract_function_calls (cfg : Cfg) (node : TSNode) : List String :=
  dedupKeepFirst (extractCallsLoop cfg node.children) []

/-- Well-formedness of the row spans of a list of sibling nodes within a
parent span: a tree-sitter parse tree always places a child's span inside
its parent's span, with start before end. -/
def wfRows : List TSNode → Nat → Nat → Bool
  | [], _, _ => true
  | TSNode.mk _ _ _ sr er _ cs :: rest, s, e =>
    decide (s ≤ sr) && decide (er ≤ e) && decide (sr ≤ er) &&
      wfRows cs sr er && wfRows rest s e

/-- Well-formedness of a node's spans (see `wfRows`). -/
def TSNode.wf (n : TSNode) : Bool :=
  decide (n.startRow ≤ n.endRow) && wfRows n.children n.startRow n.endRow

/-- A row of the Files table (also the tuple shape that
`get_file_by_path` returns: id, path, last_modified_at, checksum,
full_content). -/
structure FileRow where
  id : Nat
  path : String
  last_modified_at : String
  checksum : String
  full_content : String
deriving DecidableEq, Repr

/-- A row of the Classes table. -/
structure ClassRow where
  id : Nat
  file_id : Nat
  name : String
  start_line : Nat
  end_line : Nat
  docstring : Option String
  body : Option String
deriving DecidableEq, Repr

/-- A row of the Functions table. -/
structure FuncRow where
  id : Nat
  file_id : Nat
  class_id : Option Nat
  name : String
  start_line : Nat
  end_line : Nat
  docstring : Option String
  body : Option String
  signature : String
deriving DecidableEq, Repr

/-- A row of the Parameters table. -/
structure ParamRow where
  id : Nat
  function_id : Nat
  name : String
  typeAnn : Option String
  default_value : Option String
deriving DecidableEq, Repr

/-- A row of the Variables table. -/
structure VarRow where
  id : Nat
  file_id : Option Nat
  class_id : Option Nat
  function_id : Option Nat
  name : String
  value : Option String
  typeAnn : Option String
  is_global : Bool
  is_class_attribute : Bool
  is_function_local : Bool
  defined_at_line : Int
deriving DecidableEq, Repr

/-- A row of the FunctionCalls table. -/
structure CallRow where
  id : Nat
  calling_function_id : Nat
  called_name : String
  call_line_number : Int
deriving DecidableEq, Repr

/-- The Persistence Gateway contract consumed by CodeAnalyzer: the
db_manager operations it calls, threaded through an explicit store state.
Each insert returns the updated state and the allocated identifier, or
none when the store rejects the row. -/
structure Db (σ : Type) where
  get_file_by_path : σ → String → Option FileRow
  insert_file : σ → String → String → String → String → σ × Option Nat
  insert_class : σ → Nat → ClassInfo → σ × Option Nat
  insert_function : σ → Nat → Option Nat → FunctionInfo → σ × Option Nat
  insert_parameter : σ → Nat → ParameterInfo → σ × Option Nat
  insert_variable : σ → VariableInfo → Option Nat → Option Nat → Option Nat → σ × Option Nat
  insert_function_call : σ → Nat → String → Int → σ × Option Nat

/-- Python truthiness of an optional integer identifier (`if not db_id`):
None and 0 are falsy. -/
def idTruthy : Option Nat → Bool
  | none => false
  | some n => n != 0

/-- The state of SQLiteManager's store: the six tables created by
`create_tables` plus the connection flag (`_execute_query` fails without
a connection) and the AUTOINCREMENT counters. -/
structure SqliteState where
  connected : Bool
  files : List FileRow
  classes : List ClassRow
  functions : List FuncRow
  parameters : List ParamRow
  variables_tbl : List VarRow
  function_calls : List CallRow
  next_file_id : Nat
  next_class_id : Nat
  next_function_id : Nat
  next_parameter_id : Nat
  next_variable_id : Nat
  next_call_id : Nat
deriving DecidableEq, Repr

/-- Models SQLiteManager as a Db instance.  `insert_file` is a plain
INSERT against `path TEXT UNIQUE NOT NULL`, so inserting a path that is
already present violates the UNIQUE constraint, `_execute_query` catches
the sqlite error and returns False, and the insert yields no id.  The
other tables carry no uniqueness constraints, and foreign keys are not
enforced (sqlite leaves them off by default and the source sets no
pragma), so those inserts succeed whenever a connection exists. -/
def sqliteDb : Db SqliteState where
  get_file_by_path := fun s path => s.files.find? (fun f => f.path == path)
  insert_file := fun s path last_modified checksum content =>
    if !s.connected then (s, none)
    else if s.files.any (fun f => f.path == path) then (s, none)
    else
      ({ s with files := s.files ++ [⟨s.next_file_id, path, last_modified, checksum, content⟩],
                next_file_id := s.next_file_id + 1 },
       some s.next_file_id)
  insert_class := fun s file_id ci =>
    if !s.connected then (s, none)
    else
      ({ s with classes := s.classes ++
                  [⟨s.next_class_id, file_id, ci.name, ci.start_line, ci.end_line,
                    ci.docstring, ci.body⟩],
                next_class_id := s.next_class_id + 1 },
       some s.next_class_id)
  insert_function := fun s file_id class_id fi =>
    if !s.connected then (s, none)
    else
      ({ s with functions := s.functions ++
                  [⟨s.next_function_id, file_id, class_id, fi.name, fi.start_line,
                    fi.end_line, fi.docstring, fi.body,
                    fi.name ++ "(" ++ String.intercalate ", " (fi.parameters.map (fun p => p.name)) ++ ")"⟩],
                next_function_id := s.next_function_id + 1 },
       some s.next_function_id)
  insert_parameter := fun s function_id p =>
    if !s.connected then (s, none)
    else
      ({ s with parameters := s.parameters ++
                  [⟨s.next_parameter_id, function_id, p.name, p.typeAnn, p.default_value⟩],
                next_parameter_id := s.next_parameter_id + 1 },
       some s.next_parameter_id)
  insert_variable := fun s v file_id class_id function_id =>
    if !s.connected then (s, none)
    else
      ({ s with variables_tbl := s.variables_tbl ++
                  [⟨s.next_variable_id, file_id, class_id, function_id, v.name, v.value,
                    v.typeAnn, v.is_global, v.is_class_attribute, v.is_function_local,
                    v.defined_at_line⟩],
                next_variable_id := s.next_variable_id + 1 },
       some s.next_variable_id)
  insert_function_call := fun s calling_function_id called_name line =>
    if !s.connected then (s, none)
    else
      ({ s with function_calls := s.function_calls ++
                  [⟨s.next_call_id, calling_function_id, called_name, line⟩],
                next_call_id := s.next_call_id + 1 },
       some s.next_call_id)

/-- A Persistence Gateway whose entity inserts for functions and classes
are rejected by the store (as happens whenever `_execute_query` returns
False on a sqlite error for those statements), while the remaining
operations allocate identifiers from a simple counter state.  Used to
exercise the persistence-failure paths. -/
def rejectEntityDb : Db Nat where
  get_file_by_path := fun _ _ => none
  insert_file := fun s _ _ _ _ => (s + 1, some (s + 1))
  insert_class := fun s _ _ => (s, none)
  insert_function := fun s _ _ _ => (s, none)
  insert_parameter := fun s _ _ => (s + 1, some (s + 1))
  insert_variable := fun s _ _ _ _ => (s + 1, some (s + 1))
  insert_function_call := fun s _ _ _ => (s + 1, some (s + 1))

/-- Docstring detection shared by function and class visits: for Python,
a docstring is present exactly when the first statement of the body is an
expression statement whose first child is a string literal. -/
def pyDocstring (cfg : Cfg) (body_node : Option TSNode) : Option String :=
  if cfg.language == Lang.python then
    match body_node with
    | some b =>
      match b.children.head? with
      | some first_child =>
        if first_child.ty == "expression_statement" then
          match first_child.children.head? with
          | some f0 =>
            if f0.ty == "string" then some (stripQuotes (get_node_text f0)) else none
          | none => none
        else none
      | none => none
    | none => none
  else none

/-- The pure entity-building part of `_visit_function_definition`
(lines 370-399): name resolution, line span, parameters, docstring, body
text, local variables filtered against the parameter names, and calls. -/
def build_function_info (cfg : Cfg) (node : TSNode) (name_node : Option TSNode)
    (arrow_node : TSNode) (body_node : Option TSNode) : FunctionInfo :=
  let func_name := match name_node with
    | some nn => get_node_text nn
    | none => "anonymous"
  let start_line := node.startRow + 1
  let end_line := match body_node with
    | some b => b.endRow + 1
    | none => node.endRow + 1
  let parameters := extract_parameters cfg arrow_node
  let docstring := pyDocstring cfg body_node
  let func_body_content := body_node.map get_node_text
  let local_variables := match body_node with
    | some b =>
      let lv := extract_variables cfg false false true b
      let param_names := parameters.map (fun p => p.name)
      lv.filter (fun v => !(param_names.contains v.name))
    | none => []
  let calls_made := match body_node with
    | some b => extract_function_calls cfg b
    | none => []
  ⟨func_name, start_line, end_line, parameters, docstring, func_body_content,
   local_variables, calls_made⟩

/-- Models `_visit_function_definition`: resolve the name, parameter-list
and body nodes (through the declarator's arrow-function value when
`is_arrow`), build the FunctionInfo, insert it through the gateway, and
on a successful insert also persist its parameters, local variables and
call edges (the latter always with line number -1). -/
def visit_function_definition {σ : Type} (cfg : Cfg) (db : Db σ) (s : σ) (node : TSNode)
    (file_id : Nat) (class_id : Option Nat) (is_arrow : Bool) : σ × Option FunctionInfo :=
  let parts : Option (TSNode × Option TSNode × Option TSNode) :=
    if is_arrow then
      match node.childByField "value" with
      | some arrow_node =>
        if arrow_node.ty == "arrow_function" then
          some (arrow_node, node.childByField "name", arrow_node.childByField "body")
        else none
      | none => none
    else
      some (node, node.childByField "name", node.childByField "body")
  match parts with
  | none => (s, none)
  | some (arrow_node, name_node, body_node) =>
    if name_node.isNone && !is_arrow then (s, none)
    else
      let func_info := build_function_info cfg node name_node arrow_node body_node
      let r1 := db.insert_function s file_id class_id func_info
      match r1.2 with
      | none => (r1.1, none)
      | some db_func_id =>
        if db_func_id == 0 then (r1.1, none)
        else
          let s2 := func_info.parameters.foldl
            (fun st p => (db.insert_parameter st db_func_id p).1) r1.1
          let s3 := func_info.local_variables.foldl
            (fun st v => (db.insert_variable st v none none (some db_func_id)).1) s2
          let s4 := func_info.calls_made.foldl
            (fun st c => (db.insert_function_call st db_func_id c (-1)).1) s3
          (s4, some func_info)

/-- Models `_visit_class_definition`: resolve name and body, build the
ClassInfo with attributes from `_extract_variables` scoped as class
attributes, insert it, persist the attributes, then visit the direct
children of the body that are method definitions. -/
def visit_class_definition {σ : Type} (cfg : Cfg) (db : Db σ) (s : σ) (node : TSNode)
    (file_id : Nat) : σ × Option ClassInfo :=
  match node.childByField "name" with
  | none => (s, none)
  | some name_node =>
    let body_node := node.childByField "body"
    let class_name := get_node_text name_node
    let start_line := name_node.startRow + 1
    let end_line := match body_node with
      | some b => b.endRow + 1
      | none => name_node.endRow + 1
    let docstring := pyDocstring cfg body_node
    let class_body_content := body_node.map get_node_text
    let class_attributes := match body_node with
      | some b => extract_variables cfg false true false b
      | none => []
    let ci0 : ClassInfo :=
      ⟨class_name, start_line, end_line, docstring, [], class_body_content, class_attributes⟩
    let r1 := db.insert_class s file_id ci0
    match r1.2 with
    | none => (r1.1, none)
    | some db_class_id =>
      if db_class_id == 0 then (r1.1, none)
      else
        let s2 := class_attributes.foldl
          (fun st a => (db.insert_variable st a none (some db_class_id) none).1) r1.1
        match body_node with
        | none => (s2, some ci0)
        | some b =>
          let node_type := if cfg.language == Lang.python
            then "function_definition" else "method_definition"
          let r2 := b.children.foldl
            (fun (acc : σ × List FunctionInfo) child =>
              if child.ty == node_type then
                let r := visit_function_definition cfg db acc.1 child file_id (some db_class_id) false
                match r.2 with
                | some method_info => (r.1, acc.2 ++ [method_info])
                | none => (r.1, acc.2)
              else acc)
            (s2, [])
          (r2.1, some ⟨class_name, start_line, end_line, docstring, r2.2,
                       class_body_content, class_attributes⟩)

/-- The declarator handling inside the `lexical_declaration` branch of
the analyze_code walk: a variable_declarator whose value is an arrow
function is visited as an arrow function. -/
def arrow_decl_step {σ : Type} (cfg : Cfg) (db : Db σ) (file_id : Nat)
    (acc2 : σ × List FunctionInfo × List ClassInfo) (declarator : TSNode) :
    σ × List FunctionInfo × List ClassInfo :=
  if declarator.ty == "variable_declarator" then
    match declarator.childByField "value" with
    | some value_node =>
      if value_node.ty == "arrow_function" then
        let v := visit_function_definition cfg db acc2.1 declarator file_id none true
        match v.2 with
        | some func_info => (v.1, acc2.2.1 ++ [func_info], acc2.2.2)
        | none => (v.1, acc2.2.1, acc2.2.2)
      else acc2
    | none => acc2
  else acc2

/-- The per-child dispatch of the analyze_code walk (the body of the
cursor loop at lines 487-513): skip unparseable fragments, visit function
definitions, arrow declarators and class definitions, and pass everything
else by. -/
def extraction_step {σ : Type} (cfg : Cfg) (db : Db σ) (file_id : Nat)
    (acc : σ × List FunctionInfo × List ClassInfo) (node : TSNode) :
    σ × List FunctionInfo × List ClassInfo :=
  if node.ty == "ERROR" then acc
  else if (cfg.language == Lang.python && node.ty == "function_definition")
          || (cfg.language == Lang.javascript && node.ty == "function_declaration") then
    let v := visit_function_definition cfg db acc.1 node file_id none false
    match v.2 with
    | some func_info => (v.1, acc.2.1 ++ [func_info], acc.2.2)
    | none => (v.1, acc.2.1, acc.2.2)
  else if cfg.language == Lang.javascript && node.ty == "lexical_declaration" then
    node.namedChildren.foldl (arrow_decl_step cfg db file_id) acc
  else if (cfg.language == Lang.python && node.ty == "class_definition")
          || (cfg.language == Lang.javascript && node.ty == "class_declaration") then
    let v := visit_class_definition cfg db acc.1 node file_id
    match v.2 with
    | some class_info => (v.1, acc.2.1, acc.2.2 ++ [class_info])
    | none => (v.1, acc.2.1, acc.2.2)
  else acc

/-- The extraction-and-persistence phase of `analyze_code` (lines
480-515), run once a file id is known: extract and persist the top-level
variables, then walk the root's children with `extraction_step`. -/
def run_extraction {σ : Type} (cfg : Cfg) (db : Db σ) (s : σ) (root : TSNode)
    (file_path : String) (file_id : Nat) : σ × AnalysisResults :=
  let current_scope_variables := extract_variables cfg true false false root
  let s1 := current_scope_variables.foldl
    (fun st v => (db.insert_variable st v (some file_id) none none).1) s
  let r := root.children.foldl (extraction_step cfg db file_id) (s1, [], [])
  (r.1, ⟨file_path, none, current_scope_variables, r.2.1, r.2.2⟩)

/-- Models `analyze_code`.  The already-parsed tree is passed in as
`root` (the parser is the external collaborator producing it from the
source text), and the md5 hex digest and the current timestamp are the
parameters `hash` and `now`.  Fingerprint logic: look the path up; when
no truthy file id is known or the stored checksum differs from the hash
of the current content, insert a new File row and fail the whole call if
that insert yields no truthy id; then run extraction with the file id at
hand.  Note that a matching checksum skips only the File re-insertion,
not the extraction phase. -/
def analyze_code {σ : Type} (cfg : Cfg) (db : Db σ) (hash : String → String) (now : String)
    (s : σ) (root : TSNode) (code_string : String) (file_path : String) :
    σ × Option AnalysisResults :=
  let checksum := hash code_string
  let file_record := db.get_file_by_path s file_path
  let file_id : Option Nat := file_record.map (fun r => r.id)
  let need_insert : Bool :=
    !(idTruthy file_id) ||
      (match file_record with
       | some r => r.checksum != checksum
       | none => false)
  let r1 : σ × Option Nat :=
    if need_insert then
      let ri := db.insert_file s file_path now checksum code_string
      (ri.1, if idTruthy ri.2 then ri.2 else none)
    else (s, file_id)
  match r1.2 with
  | none => (r1.1, none)
  | some fid =>
    let r2 := run_extraction cfg db r1.1 root file_path fid
    (r2.1, some r2.2)

/-- Anonymous token node (keywords and punctuation in the parse tree). -/
def tokN (ty : String) (r : Nat) : TSNode := TSNode.mk ty false none r r ty []

/-- Named leaf node carrying an optional field name. -/
def leafN (ty : String) (f : Option String) (r : Nat) (txt : String) : TSNode :=
  TSNode.mk ty true f r r txt []

/-- Concrete tree: a Python expression statement assigning an integer to a
bare name, as tree-sitter parses `nm = val` on row r. -/
def pyAssignStmt (r : Nat) (nm val : String) : TSNode :=
  TSNode.mk "expression_statement" true none r r (nm ++ " = " ++ val)
    [TSNode.mk "assignment" true none r r (nm ++ " = " ++ val)
      [leafN "identifier" none r nm, tokN "=" r, leafN "integer" none r val]]

/-- Concrete tree: an indented block with the given statements. -/
def pyBlock (f : Option String) (r endR : Nat) (body : List TSNode) : TSNode :=
  TSNode.mk "block" true f r endR "<block>" body

/-- Concrete tree: a Python function definition with the given parameter
children and body statements. -/
def pyFuncDef (r endR : Nat) (nm : String) (params : List TSNode) (body : List TSNode) : TSNode :=
  TSNode.mk "function_definition" true none r endR ("def " ++ nm)
    [tokN "def" r,
     leafN "identifier" (some "name") r nm,
     TSNode.mk "parameters" true (some "parameters") r r "()" params,
     tokN ":" r,
     pyBlock (some "body") (r + 1) endR body]

/-- Concrete tree: a Python class definition with the given body statements. -/
def pyClassDef (r endR : Nat) (nm : String) (body : List TSNode) : TSNode :=
  TSNode.mk "class_definition" true none r endR ("class " ++ nm)
    [tokN "class" r, leafN "identifier" (some "name") r nm, tokN ":" r,
     pyBlock (some "body") (r + 1) endR body]

/-- Concrete tree: a Python if statement with the given consequence block. -/
def pyIfStmt (r endR : Nat) (body : List TSNode) : TSNode :=
  TSNode.mk "if_statement" true none r endR "if cond:"
    [tokN "if" r, leafN "identifier" (some "condition") r "cond", tokN ":" r,
     pyBlock (some "consequence") (r + 1) endR body]

/-- Concrete tree: a Python expression statement calling a bare name. -/
def pyCallStmt (r : Nat) (fn : String) : TSNode :=
  TSNode.mk "expression_statement" true none r r (fn ++ "()")
    [TSNode.mk "call" true none r r (fn ++ "()")
      [leafN "identifier" (some "function") r fn,
       TSNode.mk "argument_list" true (some "arguments") r r "()" []]]

/-- Concrete tree: a module root node. -/
def pyModule (endR : Nat) (body : List TSNode) : TSNode :=
  TSNode.mk "module" true none 0 endR "<module>" body

/-- Concrete tree: an unparseable fragment. -/
def errNode (r : Nat) : TSNode := TSNode.mk "ERROR" true none r r "@@@" []

/-- The configuration of a Python analyzer. -/
def pyCfg : Cfg := ⟨Lang.python, some "py"⟩

/-- A connected sqlite store with empty tables and fresh AUTOINCREMENT
counters. -/
def sqlInit : SqliteState := ⟨true, [], [], [], [], [], [], 1, 1, 1, 1, 1, 1⟩

/-- Store state with one already-analyzed file on record: path a.py,
stored checksum h1. -/
def c1state : SqliteState :=
  ⟨true, [⟨1, "a.py", "t0", "h1", "old"⟩], [], [], [], [], [], 2, 1, 1, 1, 1, 1⟩

/-- Module tree with a single top-level function foo whose body calls bar. -/
def c1root : TSNode := pyModule 2 [pyFuncDef 0 1 "foo" [] [pyCallStmt 1 "bar"]]

/-- Claim C1, counterexample.  The current content of a.py hashes to h1,
equal to the stored checksum, so this run is a cache hit; the claim says
analyze_code then skips structural extraction entirely and returns a
result without entities, persisting nothing.  Instead the run returns a
result whose functions list contains foo, inserts a Functions row for foo
into the store, and even re-persists foo's call edge — only the Files row
itself is left alone. -/
theorem C1_cache_hit_counterexample :
    ((analyze_code pyCfg sqliteDb (fun _ => "h1") "t1" c1state c1root "new code" "a.py").2.map
        (fun res => res.functions.map (fun fi => fi.name)) = some ["foo"]) ∧
    ((analyze_code pyCfg sqliteDb (fun _ => "h1") "t1" c1state c1root "new code" "a.py").1.functions.map
        (fun row => row.name) = ["foo"]) ∧
    ((analyze_code pyCfg sqliteDb (fun _ => "h1") "t1" c1state c1root "new code" "a.py").1.function_calls.map
        (fun row => row.called_name) = ["bar"]) ∧
    ((analyze_code pyCfg sqliteDb (fun _ => "h1") "t1" c1state c1root "new code" "a.py").1.files
        = c1state.files) := by
  refine ⟨?_, ?_, ?_, ?_⟩ <;>
  simp [analyze_code, run_extraction, extraction_step, arrow_decl_step, visit_function_definition, build_function_info,
    visit_class_definition, extract_variables, extractVarsLoop,
    directVars, recurseIntoVars, pyAssignVar, extract_parameters, paramOfChild,
    extract_function_calls, extractCallsLoop, dedupKeepFirst, pyDocstring, idTruthy,
    pyBlock, pyAssignStmt, pyFuncDef, pyIfStmt, pyCallStmt, pyModule, leafN, tokN,
    pyCfg, sqliteDb, sqlInit, c1state, c1root,
    TSNode.namedChild, TSNode.namedChildren, TSNode.childByField, get_node_text, valueAfterEq]

/-- Claim C6, evidence.  Same stored record as C1 (checksum h1), but the
current content now hashes to h2, so the fingerprint says re-analyze.
The claim (and the source's own log line) says a fresh extraction pass
runs and a new File record is persisted.  Instead insert_file runs a
plain INSERT against the UNIQUE path column, the store rejects it,
analyze_code returns None, and neither extraction nor any insert happens:
the returned state is exactly the input state. -/
theorem C6_changed_checksum_aborts :
    analyze_code pyCfg sqliteDb (fun _ => "h2") "t1" c1state c1root "new code" "a.py"
      = (c1state, none) := by
  simp [analyze_code, idTruthy, sqliteDb, c1state, c1root,
    TSNode.childByField, pyModule, pyFuncDef, pyBlock, pyCallStmt, leafN, tokN, pyCfg]

/-- Class tree: class C with attribute a = 1 on row 1 and method m whose
body assigns y = 2 on row 3.  The only assignment to y is inside the
method body, not in the class body itself. -/
def c2class : TSNode :=
  pyClassDef 0 3 "C" [pyAssignStmt 1 "a" "1", pyFuncDef 2 3 "m" [] [pyAssignStmt 3 "y" "2"]]

/-- Claim C2, counterexample.  The claim says class attributes are exactly
the variables declared directly in the class body, and that variable
extraction never descends into nested function bodies.  But the recursion
guard of the variable pass skips function/class definitions only in the
is_global case, so extracting C's attributes descends into method m and
records its local y as a class attribute: the attribute names come out as
a and y rather than just a. -/
theorem C2_method_local_leaks_counterexample :
    ((visit_class_definition pyCfg sqliteDb sqlInit c2class 1).2.map
        (fun ci => ci.attributes.map (fun v => v.name))) = some ["a", "y"] := by
  simp [visit_class_definition, visit_function_definition, build_function_info,
    extract_variables, extractVarsLoop, directVars, recurseIntoVars, pyAssignVar,
    extract_parameters, paramOfChild, extract_function_calls, extractCallsLoop,
    dedupKeepFirst, pyDocstring, c2class,
    pyBlock, pyAssignStmt, pyClassDef, pyFuncDef, leafN, tokN, pyCfg, sqliteDb, sqlInit,
    TSNode.namedChild, TSNode.namedChildren, TSNode.childByField, get_node_text, valueAfterEq]

/-- Function tree: f assigns x = 1 directly in its body (row 1) and
assigns x = 2 again inside an if block (row 3). -/
def c3func : TSNode :=
  pyFuncDef 0 3 "f" [] [pyAssignStmt 1 "x" "1", pyIfStmt 2 3 [pyAssignStmt 3 "x" "2"]]

/-- Claim C3, counterexample.  The claim says no scope's variable list
holds two entities with the same name, explicitly including redefinitions
inside nested control-flow blocks.  But the seen-names set is local to
each recursive call of the variable pass, and the descent into the if
block starts with a fresh set, so f's local-variable list records x
twice. -/
theorem C3_nested_redefinition_counterexample :
    ((visit_function_definition pyCfg sqliteDb sqlInit c3func 1 none false).2.map
        (fun fi => fi.local_variables.map (fun v => v.name))) = some ["x", "x"] := by
  simp [visit_function_definition, build_function_info, extract_variables, extractVarsLoop,
    directVars, recurseIntoVars, pyAssignVar, extract_parameters, paramOfChild,
    extract_function_calls, extractCallsLoop, dedupKeepFirst, pyDocstring, c3func,
    pyBlock, pyAssignStmt, pyFuncDef, pyIfStmt, leafN, tokN, pyCfg, sqliteDb, sqlInit,
    TSNode.namedChild, TSNode.namedChildren, TSNode.childByField, get_node_text, valueAfterEq]

/-- Module tree with one valid top-level function foo. -/
def c5root : TSNode := pyModule 1 [pyFuncDef 0 1 "foo" [] []]

/-- Claim C5, counterexample.  Against a gateway whose insert_function is
rejected by the store, the claim says foo is dropped from the persisted
graph but still appears in the returned AnalysisResult.  Instead the
visit returns None as soon as the insert yields no id, so the extraction
pass appends nothing: the in-memory functions list is empty too. -/
theorem C5_insert_failure_counterexample :
    ((visit_function_definition pyCfg rejectEntityDb 0 (pyFuncDef 0 1 "foo" [] []) 1 none false).2
        = none) ∧
    ((run_extraction pyCfg rejectEntityDb 0 c5root "a.py" 1).2.functions = []) := by
  refine ⟨?_, ?_⟩ <;>
  simp [run_extraction, extraction_step, arrow_decl_step, visit_function_definition, build_function_info,
    visit_class_definition, extract_variables, extractVarsLoop,
    directVars, recurseIntoVars, pyAssignVar, extract_parameters, paramOfChild,
    extract_function_calls, extractCallsLoop, dedupKeepFirst, pyDocstring, c5root,
    pyBlock, pyFuncDef, pyModule, leafN, tokN, pyCfg, rejectEntityDb,
    TSNode.namedChild, TSNode.namedChildren, TSNode.childByField, get_node_text, valueAfterEq]

/-- Function tree: foo starts on row 4 (line 5) and its body calls bar on
row 5 (line 6). -/
def c7func : TSNode := pyFuncDef 4 5 "foo" [] [pyCallStmt 5 "bar"]

/-- Claim C7, counterexample.  The claim says a persisted call edge's line
number defaults to the calling function's start line when the call's own
line is unavailable.  The source never inspects any line at all: it
passes the constant -1 to insert_function_call.  Here foo starts at line
5 and its call to bar sits on line 6, yet the persisted row carries -1,
which is neither. -/
theorem C7_call_line_counterexample :
    ((visit_function_definition pyCfg sqliteDb sqlInit c7func 1 none false).1.function_calls
        = [⟨1, 1, "bar", -1⟩]) ∧
    ((visit_function_definition pyCfg sqliteDb sqlInit c7func 1 none false).2.map
        (fun fi => fi.start_line) = some 5) := by
  refine ⟨?_, ?_⟩ <;>
  simp [visit_function_definition, build_function_info, extract_variables, extractVarsLoop,
    directVars, recurseIntoVars, pyAssignVar, extract_parameters, paramOfChild,
    extract_function_calls, extractCallsLoop, dedupKeepFirst, pyDocstring, c7func,
    pyBlock, pyCallStmt, pyFuncDef, leafN, tokN, pyCfg, sqliteDb, sqlInit,
    TSNode.namedChild, TSNode.namedChildren, TSNode.childByField, get_node_text, valueAfterEq]

/-- Concrete tree: a Python star-args parameter node with the given name. -/
def pwNode (r : Nat) (nm : String) : TSNode :=
  TSNode.mk "positional_wildcard_parameter" true none r r ("*" ++ nm)
    [tokN "*" r, leafN "identifier" (some "name") r nm]

/-- Concrete tree: a Python double-star-kwargs parameter node with the
given name. -/
def kwNode (r : Nat) (nm : String) : TSNode :=
  TSNode.mk "keyword_wildcard_parameter" true none r r ("**" ++ nm)
    [tokN "**" r, leafN "identifier" (some "name") r nm]

/-- Function tree whose parameter list holds a positional-variadic args
and a keyword-variadic kwargs. -/
def c9func : TSNode := pyFuncDef 0 1 "f" [pwNode 0 "args", kwNode 0 "kwargs"] []

/-- Claim C9, counterexample.  The claim says variadic parameter names are
recorded with a prefix marker distinguishing positional- from
keyword-variadic.  The wildcard branch of parameter extraction records
the bare text of the name child with no prefix at all, and both wildcard
kinds run the identical code: the extracted names are plain args and
kwargs, and a positional and a keyword wildcard sharing the name x
produce indistinguishable records. -/
theorem C9_no_variadic_marker_counterexample :
    (extract_parameters pyCfg c9func
        = [⟨"args", none, none⟩, ⟨"kwargs", none, none⟩]) ∧
    (paramOfChild pyCfg (pwNode 0 "x") = paramOfChild pyCfg (kwNode 0 "x")) := by
  refine ⟨?_, ?_⟩ <;>
  simp [extract_parameters, paramOfChild, c9func, pwNode, kwNode,
    pyFuncDef, pyBlock, leafN, tokN, pyCfg,
    TSNode.namedChild, TSNode.namedChildren, TSNode.childByField, get_node_text]

/-- Result-shape lemma for `visit_function_definition`: whenever the visit
returns a FunctionInfo, that record is precisely the one assembled by
`build_function_info` from the resolved name, arrow and body nodes (with
the arrow node being the node itself in the non-arrow case, and the
declarator's arrow-function value otherwise). -/
theorem visit_function_definition_some {σ : Type} (cfg : Cfg) (db : Db σ) (s : σ)
    (node : TSNode) (file_id : Nat) (class_id : Option Nat) (is_arrow : Bool)
    (fi : FunctionInfo)
    (h : (visit_function_definition cfg db s node file_id class_id is_arrow).2 = some fi) :
    (is_arrow = false ∧
      fi = build_function_info cfg node (node.childByField "name") node (node.childByField "body"))
    ∨ (is_arrow = true ∧ ∃ an, node.childByField "value" = some an ∧ an.ty = "arrow_function" ∧
        fi = build_function_info cfg node (node.childByField "name") an (an.childByField "body")) := by
  unfold visit_function_definition at h
  cases is_arrow with
  | false =>
    simp only [Bool.false_eq_true, if_false, Bool.not_false, Bool.and_true] at h
    repeat' split at h
    all_goals first
      | exact Or.inl ⟨rfl, (Option.some.inj h).symm⟩
      | simp at h
  | true =>
    simp only [if_true] at h
    rcases hv : node.childByField "value" with _ | an
    · rw [hv] at h; simp at h
    · rw [hv] at h
      by_cases hty : an.ty = "arrow_function"
      · simp only [hty, beq_self_eq_true, if_true] at h
        simp only [Bool.not_true, Bool.and_false, Bool.false_eq_true, if_false] at h
        repeat' split at h
        all_goals first
          | exact Or.inr ⟨rfl, an, rfl, hty, (Option.some.inj h).symm⟩
          | simp at h
      · simp only [beq_eq_false_iff_ne.mpr hty, Bool.false_eq_true, if_false] at h
        simp at h

/-- In any FunctionInfo assembled by `build_function_info`, the
local-variable list has already been filtered against the parameter
names. -/
theorem build_function_info_locals_filtered (cfg : Cfg) (node : TSNode)
    (name_node : Option TSNode) (arrow_node : TSNode) (body_node : Option TSNode) :
    ∀ v ∈ (build_function_info cfg node name_node arrow_node body_node).local_variables,
      ∀ p ∈ (build_function_info cfg node name_node arrow_node body_node).parameters,
        v.name ≠ p.name := by
  intro v hv p hp heq
  unfold build_function_info at hv hp
  simp only [] at hv hp
  cases body_node with
  | none => simp at hv
  | some b =>
    simp only [List.mem_filter, Bool.not_eq_true'] at hv
    have hmem : p.name ∈ (extract_parameters cfg arrow_node).map (fun p => p.name) :=
      List.mem_map_of_mem _ hp
    rw [← heq] at hmem
    have := hv.2
    simp only [List.contains, List.elem_eq_mem, decide_eq_false_iff_not] at this
    exact this hmem

/-- Claim C10, confirmed.  Every FunctionInfo returned by
`visit_function_definition` has its local-variable list disjoint from its
parameter names: locals that coincide with a parameter name were filtered
out before the record was built and persisted. -/
theorem C10_locals_never_shadow_parameters {σ : Type} (cfg : Cfg) (db : Db σ) (s : σ)
    (node : TSNode) (file_id : Nat) (class_id : Option Nat) (is_arrow : Bool)
    (fi : FunctionInfo)
    (h : (visit_function_definition cfg db s node file_id class_id is_arrow).2 = some fi) :
    ∀ v ∈ fi.local_variables, ∀ p ∈ fi.parameters, v.name ≠ p.name := by
  rcases visit_function_definition_some cfg db s node file_id class_id is_arrow fi h with
    ⟨-, rfl⟩ | ⟨-, an, hv, hty, rfl⟩
  · exact build_function_info_locals_filtered cfg node _ _ _
  · exact build_function_info_locals_filtered cfg node _ _ _

/-- Function tree: g with parameter a whose body assigns both a and b. -/
def c10func : TSNode :=
  pyFuncDef 0 2 "g" [leafN "identifier" none 0 "a"]
    [pyAssignStmt 1 "a" "5", pyAssignStmt 2 "b" "6"]

/-- The FunctionInfo the analysis produces for `c10func`: the local a was
filtered out, only b remains. -/
def c10fi : FunctionInfo :=
  ⟨"g", 1, 3, [⟨"a", none, none⟩], none, some "<block>",
   [⟨"b", some "6", none, false, false, true, 3, none⟩], []⟩

/-- Witness for C10: on the concrete function g(a) whose body assigns a
and b, the visit returns the record `c10fi` and its locals avoid the
parameter names. -/
theorem C10_witness :
    ((visit_function_definition pyCfg sqliteDb sqlInit c10func 1 none false).2 = some c10fi) ∧
    (∀ v ∈ c10fi.local_variables, ∀ p ∈ c10fi.parameters, v.name ≠ p.name) :=
  ⟨by simp [visit_function_definition, build_function_info, extract_variables, extractVarsLoop,
      directVars, recurseIntoVars, pyAssignVar, extract_parameters, paramOfChild,
      extract_function_calls, extractCallsLoop, dedupKeepFirst, pyDocstring, c10func, c10fi,
      pyBlock, pyAssignStmt, pyFuncDef, leafN, tokN, pyCfg, sqliteDb, sqlInit,
      TSNode.namedChild, TSNode.namedChildren, TSNode.childByField, get_node_text, valueAfterEq],
   C10_locals_never_shadow_parameters pyCfg sqliteDb sqlInit c10func 1 none false c10fi
    (by simp [visit_function_definition, build_function_info, extract_variables, extractVarsLoop,
      directVars, recurseIntoVars, pyAssignVar, extract_parameters, paramOfChild,
      extract_function_calls, extractCallsLoop, dedupKeepFirst, pyDocstring, c10func, c10fi,
      pyBlock, pyAssignStmt, pyFuncDef, leafN, tokN, pyCfg, sqliteDb, sqlInit,
      TSNode.namedChild, TSNode.namedChildren, TSNode.childByField, get_node_text, valueAfterEq])⟩

/-- Every member of a well-formed sibling list sits inside the enclosing
span and is itself well-formed. -/
theorem wfRows_mem {cs : List TSNode} {s e : Nat} (hw : wfRows cs s e = true)
    {c : TSNode} (hc : c ∈ cs) :
    s ≤ c.startRow ∧ c.endRow ≤ e ∧ c.wf = true := by
  induction cs with
  | nil => cases hc
  | cons head tail ih =>
    cases head with
    | mk t nm fl sr er tx cc =>
      simp only [wfRows, Bool.and_eq_true, decide_eq_true_eq] at hw
      cases hc with
      | head =>
        exact ⟨hw.1.1.1.1, hw.1.1.1.2, by
          simp only [TSNode.wf, TSNode.startRow, TSNode.endRow, TSNode.children,
            Bool.and_eq_true, decide_eq_true_eq]
          exact ⟨hw.1.1.2, hw.1.2⟩⟩
      | tail _ hc =>
        exact ih hw.2 hc

/-- A child found by field name is a member of the children list. -/
theorem childByField_mem {n : TSNode} {f : String} {c : TSNode}
    (h : n.childByField f = some c) : c ∈ n.children :=
  List.mem_of_find?_eq_some h

/-- A well-formed node starts no later than it ends. -/
theorem wf_start_le_end {n : TSNode} (h : n.wf = true) : n.startRow ≤ n.endRow := by
  simp only [TSNode.wf, Bool.and_eq_true, decide_eq_true_eq] at h
  exact h.1

/-- A well-formed node's child sits inside the node's span and is itself
well-formed. -/
theorem wf_child {n : TSNode} (h : n.wf = true) {c : TSNode} (hc : c ∈ n.children) :
    n.startRow ≤ c.startRow ∧ c.endRow ≤ n.endRow ∧ c.wf = true := by
  simp only [TSNode.wf, Bool.and_eq_true, decide_eq_true_eq] at h
  exact wfRows_mem h.2 hc

/-- The start line of a built FunctionInfo is the defining node's row
plus one. -/
theorem build_function_info_start (cfg : Cfg) (node : TSNode) (nn : Option TSNode)
    (an : TSNode) (bn : Option TSNode) :
    (build_function_info cfg node nn an bn).start_line = node.startRow + 1 := rfl

/-- With a body node present, the end line comes from the body span. -/
theorem build_function_info_end_some (cfg : Cfg) (node : TSNode) (nn : Option TSNode)
    (an : TSNode) (b : TSNode) :
    (build_function_info cfg node nn an (some b)).end_line = b.endRow + 1 := rfl

/-- Without a body node, the end line falls back to the defining node's
own span. -/
theorem build_function_info_end_none (cfg : Cfg) (node : TSNode) (nn : Option TSNode)
    (an : TSNode) :
    (build_function_info cfg node nn an none).end_line = node.endRow + 1 := rfl

/-- Claim C8, confirmed.  On any well-formed parse tree, every
FunctionInfo produced by `visit_function_definition` — top-level function,
method or arrow function, with or without a body node — satisfies
start_line less-or-equal end_line: the end line is taken from the body
child's span (which a well-formed tree nests inside the definition's
span) or falls back to the definition's own span. -/
theorem C8_end_line_ge_start_line {σ : Type} (cfg : Cfg) (db : Db σ) (s : σ)
    (node : TSNode) (file_id : Nat) (class_id : Option Nat) (is_arrow : Bool)
    (fi : FunctionInfo)
    (hwf : node.wf = true)
    (h : (visit_function_definition cfg db s node file_id class_id is_arrow).2 = some fi) :
    fi.start_line ≤ fi.end_line := by
  rcases visit_function_definition_some cfg db s node file_id class_id is_arrow fi h with
    ⟨-, rfl⟩ | ⟨-, an, hv, hty, rfl⟩
  · rcases hb : node.childByField "body" with _ | b
    · rw [build_function_info_start, build_function_info_end_none]
      exact Nat.add_le_add_right (wf_start_le_end hwf) 1
    · rw [build_function_info_start, build_function_info_end_some]
      have hc := wf_child hwf (childByField_mem hb)
      exact Nat.add_le_add_right (Nat.le_trans hc.1 (wf_start_le_end hc.2.2)) 1
  · rcases hb : an.childByField "body" with _ | b
    · rw [build_function_info_start, build_function_info_end_none]
      exact Nat.add_le_add_right (wf_start_le_end hwf) 1
    · rw [build_function_info_start, build_function_info_end_some]
      have han := wf_child hwf (childByField_mem hv)
      have hc := wf_child han.2.2 (childByField_mem hb)
      exact Nat.add_le_add_right
        (Nat.le_trans han.1 (Nat.le_trans hc.1 (wf_start_le_end hc.2.2))) 1

/-- Function tree: foo defined on rows 4-6 with a call on row 5. -/
def c8func : TSNode := pyFuncDef 4 6 "foo" [] [pyCallStmt 5 "bar"]

/-- The FunctionInfo the analysis produces for `c8func`. -/
def c8fi : FunctionInfo := ⟨"foo", 5, 7, [], none, some "<block>", [], ["bar"]⟩

/-- Witness for C8: the concrete tree `c8func` is well-formed, the visit
returns `c8fi`, and its start line 5 is below its end line 7. -/
theorem C8_witness :
    (TSNode.wf c8func = true) ∧
    ((visit_function_definition pyCfg sqliteDb sqlInit c8func 1 none false).2 = some c8fi) ∧
    c8fi.start_line ≤ c8fi.end_line :=
  ⟨by simp [TSNode.wf, wfRows, c8func, pyFuncDef, pyBlock, pyCallStmt, leafN, tokN],
   by simp [visit_function_definition, build_function_info, extract_variables, extractVarsLoop,
      directVars, recurseIntoVars, pyAssignVar, extract_parameters, paramOfChild,
      extract_function_calls, extractCallsLoop, dedupKeepFirst, pyDocstring, c8func, c8fi,
      pyBlock, pyCallStmt, pyFuncDef, leafN, tokN, pyCfg, sqliteDb, sqlInit,
      TSNode.namedChild, TSNode.namedChildren, TSNode.childByField, get_node_text, valueAfterEq],
   C8_end_line_ge_start_line pyCfg sqliteDb sqlInit c8func 1 none false c8fi
    (by simp [TSNode.wf, wfRows, c8func, pyFuncDef, pyBlock, pyCallStmt, leafN, tokN])
    (by simp [visit_function_definition, build_function_info, extract_variables, extractVarsLoop,
      directVars, recurseIntoVars, pyAssignVar, extract_parameters, paramOfChild,
      extract_function_calls, extractCallsLoop, dedupKeepFirst, pyDocstring, c8func, c8fi,
      pyBlock, pyCallStmt, pyFuncDef, leafN, tokN, pyCfg, sqliteDb, sqlInit,
      TSNode.namedChild, TSNode.namedChildren, TSNode.childByField, get_node_text, valueAfterEq])⟩

/-- Claim C9 as amended.  For either variadic parameter shape the wildcard
branch records the verbatim text of the name child — no prefix marker is
added, and the two shapes produce the same record. -/
theorem C9_wildcard_name_verbatim (cfg : Cfg) (child : TSNode) (nn : TSNode)
    (hlang : cfg.language = Lang.python)
    (hty : child.ty = "positional_wildcard_parameter" ∨ child.ty = "keyword_wildcard_parameter")
    (hname : child.childByField "name" = some nn) :
    paramOfChild cfg child = some ⟨get_node_text nn, none, none⟩ := by
  unfold paramOfChild
  rcases hty with hty | hty <;> rw [hty] <;> simp [hlang, hname]

/-- Witness for C9: a positional wildcard named args yields the record
with the bare name args. -/
theorem C9_witness :
    (pyCfg.language = Lang.python) ∧
    ((pwNode 0 "args").ty = "positional_wildcard_parameter"
      ∨ (pwNode 0 "args").ty = "keyword_wildcard_parameter") ∧
    ((pwNode 0 "args").childByField "name" = some (leafN "identifier" (some "name") 0 "args")) ∧
    paramOfChild pyCfg (pwNode 0 "args")
      = some ⟨get_node_text (leafN "identifier" (some "name") 0 "args"), none, none⟩ :=
  ⟨rfl, Or.inl rfl, by simp [pwNode, leafN, tokN, TSNode.childByField],
   C9_wildcard_name_verbatim pyCfg (pwNode 0 "args") (leafN "identifier" (some "name") 0 "args")
     rfl (Or.inl rfl) (by simp [pwNode, leafN, tokN, TSNode.childByField])⟩

/-- Claim C1 as amended.  On a cache hit — an existing record whose stored
checksum equals the hash of the current content, with a truthy id — the
fingerprint phase of analyze_code skips only the File re-insertion and
the run continues as a full extraction pass with the stored file id:
entities are re-derived and re-persisted. -/
theorem C1_cache_hit_runs_extraction {σ : Type} (cfg : Cfg) (db : Db σ)
    (hash : String → String) (now : String) (s : σ) (root : TSNode)
    (code_string file_path : String) (frow : FileRow)
    (hrec : db.get_file_by_path s file_path = some frow)
    (hsum : frow.checksum = hash code_string)
    (hid : frow.id ≠ 0) :
    analyze_code cfg db hash now s root code_string file_path
      = ((run_extraction cfg db s root file_path frow.id).1,
         some (run_extraction cfg db s root file_path frow.id).2) := by
  unfold analyze_code
  simp [hrec, hsum, idTruthy, hid]

/-- Witness for C1: with the stored record for a.py carrying checksum h1
and the current content hashing to h1, analyze_code equals the full
extraction pass run with the stored id 1. -/
theorem C1_witness :
    (sqliteDb.get_file_by_path c1state "a.py" = some ⟨1, "a.py", "t0", "h1", "old"⟩) ∧
    ((⟨1, "a.py", "t0", "h1", "old"⟩ : FileRow).checksum = (fun (_ : String) => "h1") "new code") ∧
    ((⟨1, "a.py", "t0", "h1", "old"⟩ : FileRow).id ≠ 0) ∧
    (analyze_code pyCfg sqliteDb (fun _ => "h1") "t1" c1state c1root "new code" "a.py"
      = ((run_extraction pyCfg sqliteDb c1state c1root "a.py"
            (⟨1, "a.py", "t0", "h1", "old"⟩ : FileRow).id).1,
         some (run_extraction pyCfg sqliteDb c1state c1root "a.py"
            (⟨1, "a.py", "t0", "h1", "old"⟩ : FileRow).id).2)) :=
  ⟨by simp [sqliteDb, c1state], rfl, by decide,
   C1_cache_hit_runs_extraction pyCfg sqliteDb (fun _ => "h1") "t1" c1state c1root
     "new code" "a.py" ⟨1, "a.py", "t0", "h1", "old"⟩
     (by simp [sqliteDb, c1state]) rfl (by decide)⟩
/-- Unfolding equation for one step of the variable-pass cursor loop. -/
theorem extractVarsLoop_cons (cfg : Cfg) (g c f : Bool) (node : TSNode)
    (rest : List TSNode) (seen : List String) :
    extractVarsLoop cfg g c f (node :: rest) seen =
      if node.ty == "ERROR" then extractVarsLoop cfg g c f rest seen
      else
        (directVars cfg g c f node seen).1 ++
          (if recurseIntoVars cfg g node then
            extractVarsLoop cfg g c f node.children [] else []) ++
          extractVarsLoop cfg g c f rest (directVars cfg g c f node seen).2 := by
  cases node with
  | mk t nm fl sr er tx cs =>
    simp [extractVarsLoop]

/-- A child whose processing is a no-op can be removed anywhere from the
child list without changing the variable pass. -/
theorem extractVarsLoop_removable (cfg : Cfg) (g c f : Bool) (node : TSNode)
    (hnode : ∀ rest seen, extractVarsLoop cfg g c f (node :: rest) seen
      = extractVarsLoop cfg g c f rest seen) :
    ∀ cs1 cs2 seen, extractVarsLoop cfg g c f (cs1 ++ node :: cs2) seen
      = extractVarsLoop cfg g c f (cs1 ++ cs2) seen := by
  intro cs1
  induction cs1 with
  | nil => intro cs2 seen; rw [List.nil_append, List.nil_append, hnode]
  | cons head tail ih =>
    intro cs2 seen
    rw [List.cons_append, List.cons_append, extractVarsLoop_cons, extractVarsLoop_cons]
    by_cases he : head.ty == "ERROR"
    · rw [if_pos he, if_pos he, ih]
    · rw [if_neg he, if_neg he, ih]

/-- The Python direct branch only fires on expression statements. -/
theorem pyAssignVar_non_stmt (g c f : Bool) (node : TSNode) (seen : List String)
    (h : node.ty ≠ "expression_statement") :
    pyAssignVar g c f node seen = none := by
  unfold pyAssignVar
  exact if_neg (by simpa using h)

/-- Under the Python adapter, a child that is not an expression statement
contributes no direct variable and leaves the seen list unchanged. -/
theorem directVars_trivial (cfg : Cfg) (g c f : Bool) (node : TSNode) (seen : List String)
    (hlang : cfg.language = Lang.python)
    (h : node.ty ≠ "expression_statement") :
    directVars cfg g c f node seen = ([], seen) := by
  unfold directVars
  simp [hlang, pyAssignVar_non_stmt g c f node seen h]

/-- At module scope the recursion guard refuses function and class
definitions. -/
theorem recurseIntoVars_global_def (cfg : Cfg) (fd : TSNode)
    (hlang : cfg.language = Lang.python)
    (hfd : fd.ty = "function_definition" ∨ fd.ty = "class_definition") :
    recurseIntoVars cfg true fd = false := by
  unfold recurseIntoVars
  rcases hfd with h | h <;> rw [h] <;> simp [hlang]

/-- Claim C2 as amended.  The part of the claim that survives: at module
scope (is_global), the variable pass skips function and class definitions
entirely, so removing such a definition from the sibling list leaves the
module-level variable extraction unchanged — inner-scope variables never
leak into the module scope.  (For class and function scopes the guard
does recurse into nested definitions; see the counterexample.) -/
theorem C2_global_scope_skips_defs (cfg : Cfg) (is_class_attribute is_function_local : Bool)
    (fd : TSNode)
    (hlang : cfg.language = Lang.python)
    (hfd : fd.ty = "function_definition" ∨ fd.ty = "class_definition")
    (cs1 cs2 : List TSNode) (seen : List String) :
    extractVarsLoop cfg true is_class_attribute is_function_local (cs1 ++ fd :: cs2) seen
      = extractVarsLoop cfg true is_class_attribute is_function_local (cs1 ++ cs2) seen := by
  refine extractVarsLoop_removable cfg true is_class_attribute is_function_local fd ?_ cs1 cs2 seen
  intro rest seen'
  have hne : fd.ty ≠ "expression_statement" := by
    rcases hfd with h | h <;> rw [h] <;> decide
  have herr : (fd.ty == "ERROR") = false := by
    rcases hfd with h | h <;> rw [h] <;> decide
  rw [extractVarsLoop_cons,
    directVars_trivial cfg true is_class_attribute is_function_local fd seen' hlang hne,
    recurseIntoVars_global_def cfg fd hlang hfd]
  simp [herr]


/-- A scope child is flat when it is an unparseable fragment or every
grandchild is an assignment node or a leaf: exactly the shape in which
the variable pass's recursion into the child finds nothing, so all
recorded variables come from one recursion level. -/
def flatVarChild (ch : TSNode) : Bool :=
  ch.ty == "ERROR" ||
    ch.children.all (fun gnode =>
      gnode.ty == "assignment" || gnode.ty == "annotated_assignment" || gnode.children.isEmpty)

/-- A childless node yields no direct variable. -/
theorem pyAssignVar_no_children (g c f : Bool) (node : TSNode) (seen : List String)
    (h : node.children = []) :
    pyAssignVar g c f node seen = none := by
  cases node with
  | mk t nm fl sr er tx cs =>
    simp only [TSNode.children] at h
    subst h
    unfold pyAssignVar
    split
    · simp [TSNode.namedChild, TSNode.namedChildren]
    · rfl

/-- A variable recorded by the Python direct branch was not in the
seen-names list it was checked against. -/
theorem pyAssignVar_mem_seen (g c f : Bool) (node : TSNode) (seen : List String)
    (v : VariableInfo) (h : pyAssignVar g c f node seen = some v) :
    v.name ∉ seen := by
  unfold pyAssignVar at h
  repeat' split at h
  all_goals try cases h
  all_goals
    simp only [List.contains, List.elem_eq_mem, Bool.not_eq_true,
      decide_eq_false_iff_not, decide_eq_true_eq] at *
  all_goals assumption

/-- Over siblings that are assignment nodes or leaves, the variable loop
records nothing (this is what the recursion into a flat child sees). -/
theorem extractVarsLoop_flat_rec_empty (cfg : Cfg) (g c f : Bool)
    (hlang : cfg.language = Lang.python) :
    ∀ (gs : List TSNode) (seen : List String),
      (∀ gnode ∈ gs, (gnode.ty == "assignment" || gnode.ty == "annotated_assignment"
        || gnode.children.isEmpty) = true) →
      extractVarsLoop cfg g c f gs seen = [] := by
  intro gs
  induction gs with
  | nil => intro seen _; simp [extractVarsLoop]
  | cons gnode rest ih =>
    intro seen hall
    have hg := hall gnode (List.mem_cons_self _ _)
    have hrest : ∀ x ∈ rest, (x.ty == "assignment" || x.ty == "annotated_assignment"
        || x.children.isEmpty) = true := fun x hx => hall x (List.mem_cons_of_mem _ hx)
    rw [extractVarsLoop_cons]
    by_cases herr : (gnode.ty == "ERROR") = true
    · rw [if_pos herr]; exact ih seen hrest
    · rw [if_neg herr]
      simp only [Bool.or_eq_true, beq_iff_eq, List.isEmpty_iff] at hg
      have hdirect : directVars cfg g c f gnode seen = ([], seen) := by
        rcases hg with (hg | hg) | hg
        · exact directVars_trivial cfg g c f gnode seen hlang (by rw [hg]; decide)
        · exact directVars_trivial cfg g c f gnode seen hlang (by rw [hg]; decide)
        · unfold directVars
          rw [if_pos (by simp [hlang]), pyAssignVar_no_children g c f gnode seen hg]
      have hrec : (if recurseIntoVars cfg g gnode then
          extractVarsLoop cfg g c f gnode.children [] else []) = [] := by
        rcases hg with (hg | hg) | hg
        · rw [if_neg]
          unfold recurseIntoVars
          rw [hlang, hg]
          simp
        · rw [if_neg]
          unfold recurseIntoVars
          rw [hlang, hg]
          simp
        · rw [hg]
          split
          · simp [extractVarsLoop]
          · rfl
      rw [hdirect, hrec]
      simpa using ih seen hrest

/-- Under the Python adapter, the direct contribution of a child is
governed entirely by `pyAssignVar`. -/
theorem directVars_python (cfg : Cfg) (hlang : cfg.language = Lang.python)
    (g c f : Bool) (node : TSNode) (seen : List String) :
    directVars cfg g c f node seen
      = match pyAssignVar g c f node seen with
        | some v => ([v], seen ++ [v.name])
        | none => ([], seen) := by
  unfold directVars
  rw [if_pos (by simp [hlang])]

/-- Over flat children, the variable loop produces pairwise-distinct
names, none of which were already seen: the seen-names set deduplicates
everything found at a single recursion level. -/
theorem extractVarsLoop_flat_nodup (cfg : Cfg) (hlang : cfg.language = Lang.python)
    (g c f : Bool) :
    ∀ (cs : List TSNode) (seen : List String),
      (∀ ch ∈ cs, flatVarChild ch = true) →
      (((extractVarsLoop cfg g c f cs seen).map (fun v => v.name)).Nodup ∧
        ∀ v ∈ extractVarsLoop cfg g c f cs seen, v.name ∉ seen) := by
  intro cs
  induction cs with
  | nil => intro seen _; simp [extractVarsLoop]
  | cons ch rest ih =>
    intro seen hall
    have hch := hall ch (List.mem_cons_self _ _)
    have hrest : ∀ x ∈ rest, flatVarChild x = true :=
      fun x hx => hall x (List.mem_cons_of_mem _ hx)
    rw [extractVarsLoop_cons]
    by_cases herr : (ch.ty == "ERROR") = true
    · rw [if_pos herr]; exact ih seen hrest
    · rw [if_neg herr]
      have hgs : ∀ gnode ∈ ch.children, (gnode.ty == "assignment"
          || gnode.ty == "annotated_assignment" || gnode.children.isEmpty) = true := by
        unfold flatVarChild at hch
        simp only [Bool.or_eq_true] at hch
        rcases hch with hch | hch
        · exact absurd hch (by simpa using herr)
        · simpa [List.all_eq_true] using hch
      have hrec : (if recurseIntoVars cfg g ch then
          extractVarsLoop cfg g c f ch.children [] else []) = [] := by
        split
        · exact extractVarsLoop_flat_rec_empty cfg g c f hlang ch.children [] hgs
        · rfl
      rw [directVars_python cfg hlang, hrec]
      rcases hv : pyAssignVar g c f ch seen with _ | v
      · simpa using ih seen hrest
      · have hvnotin := pyAssignVar_mem_seen g c f ch seen v hv
        have htail := ih (seen ++ [v.name]) hrest
        simp only [List.nil_append, List.append_nil, List.singleton_append, List.map_cons,
          List.nodup_cons]
        refine ⟨⟨?_, htail.1⟩, ?_⟩
        · intro hmem
          rcases List.mem_map.mp hmem with ⟨w, hw, hname⟩
          exact (htail.2 w hw) (by rw [hname]; simp)
        · intro w hw
          rcases List.mem_cons.mp hw with rfl | hw
          · exact hvnotin
          · intro hmem
            exact (htail.2 w hw) (by simp [hmem])

/-- Claim C3 as amended.  First-definition-wins deduplication holds for
the assignments found at a single recursion level of the variable pass:
for any scope whose children are flat (no nested control-flow blocks
re-defining names), the produced variable names are pairwise distinct.
Redefinitions inside nested blocks escape the seen set — see the
counterexample. -/
theorem C3_dedup_within_one_level (cfg : Cfg) (g c f : Bool) (scope_node : TSNode)
    (hlang : cfg.language = Lang.python)
    (hflat : ∀ ch ∈ scope_node.children, flatVarChild ch = true) :
    ((extract_variables cfg g c f scope_node).map (fun v => v.name)).Nodup :=
  (extractVarsLoop_flat_nodup cfg hlang g c f scope_node.children [] hflat).1

/-- The analyze_code walk passes over an unparseable fragment without
changing anything. -/
theorem extraction_step_error {σ : Type} (cfg : Cfg) (db : Db σ) (file_id : Nat)
    (acc : σ × List FunctionInfo × List ClassInfo) (err : TSNode) (herr : err.ty = "ERROR") :
    extraction_step cfg db file_id acc err = acc := by
  unfold extraction_step
  rw [if_pos (by simpa using herr)]

/-- The variable loop skips an unparseable fragment. -/
theorem extractVarsLoop_error_skip (cfg : Cfg) (g c f : Bool) (err : TSNode)
    (herr : err.ty = "ERROR") :
    ∀ rest seen, extractVarsLoop cfg g c f (err :: rest) seen
      = extractVarsLoop cfg g c f rest seen := by
  intro rest seen
  cases err with
  | mk t2 nm2 fl2 sr2 er2 tx2 gs2 =>
    simp only [TSNode.ty] at herr
    rw [extractVarsLoop_cons, if_pos (by simp [herr])]

/-- Claim C4, confirmed.  A single unparseable fragment among the
top-level children is skipped individually: the whole extraction pass on
a tree containing an ERROR child equals the pass on the same tree with
that child removed, so every valid sibling function is still visited,
extracted and returned, and the file-level pass is never abandoned. -/
theorem C4_error_node_isolated {σ : Type} (cfg : Cfg) (db : Db σ) (s : σ)
    (t : String) (nmd : Bool) (fl : Option String) (sr er : Nat) (tx : String)
    (cs1 cs2 : List TSNode) (err : TSNode) (herr : err.ty = "ERROR")
    (file_path : String) (file_id : Nat) :
    run_extraction cfg db s (TSNode.mk t nmd fl sr er tx (cs1 ++ err :: cs2)) file_path file_id
      = run_extraction cfg db s (TSNode.mk t nmd fl sr er tx (cs1 ++ cs2)) file_path file_id := by
  have hvars : extract_variables cfg true false false
        (TSNode.mk t nmd fl sr er tx (cs1 ++ err :: cs2))
      = extract_variables cfg true false false (TSNode.mk t nmd fl sr er tx (cs1 ++ cs2)) := by
    unfold extract_variables
    simp only [TSNode.children]
    exact extractVarsLoop_removable cfg true false false err
      (extractVarsLoop_error_skip cfg true false false err herr) cs1 cs2 []
  unfold run_extraction
  rw [hvars]
  simp only [TSNode.children]
  rw [List.foldl_append, List.foldl_cons, extraction_step_error cfg db file_id _ err herr,
    ← List.foldl_append]

/-- When the store rejects every function insert, the function visit
always returns None. -/
theorem visit_function_none_of_reject {σ : Type} (cfg : Cfg) (db : Db σ)
    (hfn : ∀ s file_id class_id fi, (db.insert_function s file_id class_id fi).2 = none) :
    ∀ s node file_id class_id is_arrow,
      (visit_function_definition cfg db s node file_id class_id is_arrow).2 = none := by
  intro s node file_id class_id is_arrow
  unfold visit_function_definition
  repeat' split
  all_goals simp_all [hfn]
  all_goals split <;> rfl

/-- When the store rejects every class insert, the class visit always
returns None. -/
theorem visit_class_none_of_reject {σ : Type} (cfg : Cfg) (db : Db σ)
    (hcl : ∀ s file_id ci, (db.insert_class s file_id ci).2 = none) :
    ∀ s node file_id, (visit_class_definition cfg db s node file_id).2 = none := by
  intro s node file_id
  unfold visit_class_definition
  repeat' split
  all_goals simp_all [hcl]

/-- With function inserts rejected, the arrow-declarator walk appends
nothing to the result lists. -/
theorem foldl_arrow_no_entities {σ : Type} (cfg : Cfg) (db : Db σ) (file_id : Nat)
    (hfn : ∀ s file_id class_id fi, (db.insert_function s file_id class_id fi).2 = none) :
    ∀ (l : List TSNode) (acc : σ × List FunctionInfo × List ClassInfo),
      (l.foldl (arrow_decl_step cfg db file_id) acc).2 = acc.2 := by
  intro l
  induction l with
  | nil => intro acc; rfl
  | cons d rest ih =>
    intro acc
    rw [List.foldl_cons, ih]
    unfold arrow_decl_step
    repeat' split
    all_goals simp_all [visit_function_none_of_reject cfg db hfn]

/-- With function and class inserts rejected, one step of the
analyze_code walk appends nothing to the result lists. -/
theorem extraction_step_no_entities {σ : Type} (cfg : Cfg) (db : Db σ) (file_id : Nat)
    (hfn : ∀ s file_id class_id fi, (db.insert_function s file_id class_id fi).2 = none)
    (hcl : ∀ s file_id ci, (db.insert_class s file_id ci).2 = none)
    (acc : σ × List FunctionInfo × List ClassInfo) (node : TSNode) :
    (extraction_step cfg db file_id acc node).2 = acc.2 := by
  unfold extraction_step
  repeat' split
  all_goals first
    | rfl
    | exact foldl_arrow_no_entities cfg db file_id hfn _ _
    | simp_all [visit_function_none_of_reject cfg db hfn, visit_class_none_of_reject cfg db hcl]

/-- With function and class inserts rejected, the whole analyze_code walk
appends nothing to the result lists. -/
theorem foldl_extraction_no_entities {σ : Type} (cfg : Cfg) (db : Db σ) (file_id : Nat)
    (hfn : ∀ s file_id class_id fi, (db.insert_function s file_id class_id fi).2 = none)
    (hcl : ∀ s file_id ci, (db.insert_class s file_id ci).2 = none) :
    ∀ (l : List TSNode) (acc : σ × List FunctionInfo × List ClassInfo),
      (l.foldl (extraction_step cfg db file_id) acc).2 = acc.2 := by
  intro l
  induction l with
  | nil => intro acc; rfl
  | cons d rest ih =>
    intro acc
    rw [List.foldl_cons, ih, extraction_step_no_entities cfg db file_id hfn hcl]

/-- Claim C5 as amended.  Against any Persistence Gateway that rejects
function and class inserts, the visits return None and the returned
AnalysisResult lists no functions and no classes: an entity whose insert
fails is dropped from the persisted graph and from the in-memory result
alike, not kept in the latter. -/
theorem C5_insert_failure_drops_both {σ : Type} (cfg : Cfg) (db : Db σ)
    (hfn : ∀ s file_id class_id fi, (db.insert_function s file_id class_id fi).2 = none)
    (hcl : ∀ s file_id ci, (db.insert_class s file_id ci).2 = none)
    (s : σ) (node root : TSNode) (file_id : Nat) (class_id : Option Nat)
    (is_arrow : Bool) (file_path : String) :
    ((visit_function_definition cfg db s node file_id class_id is_arrow).2 = none) ∧
    ((visit_class_definition cfg db s node file_id).2 = none) ∧
    ((run_extraction cfg db s root file_path file_id).2.functions = []) ∧
    ((run_extraction cfg db s root file_path file_id).2.classes = []) := by
  refine ⟨visit_function_none_of_reject cfg db hfn s node file_id class_id is_arrow,
          visit_class_none_of_reject cfg db hcl s node file_id, ?_, ?_⟩
  · unfold run_extraction
    simp only []
    have := foldl_extraction_no_entities cfg db file_id hfn hcl root.children
    rw [this]
  · unfold run_extraction
    simp only []
    have := foldl_extraction_no_entities cfg db file_id hfn hcl root.children
    rw [this]

/-- Inserting a Functions row never touches the FunctionCalls table. -/
theorem sqlite_function_preserves_calls (s : SqliteState) (file_id : Nat)
    (class_id : Option Nat) (fi : FunctionInfo) :
    ((sqliteDb.insert_function s file_id class_id fi).1).function_calls
      = s.function_calls := by
  by_cases h : s.connected <;> simp [sqliteDb, h]

/-- Inserting a Parameters row never touches the FunctionCalls table. -/
theorem sqlite_parameter_preserves_calls (s : SqliteState) (function_id : Nat)
    (p : ParameterInfo) :
    ((sqliteDb.insert_parameter s function_id p).1).function_calls = s.function_calls := by
  by_cases h : s.connected <;> simp [sqliteDb, h]

/-- Inserting a Variables row never touches the FunctionCalls table. -/
theorem sqlite_variable_preserves_calls (s : SqliteState) (v : VariableInfo)
    (file_id class_id function_id : Option Nat) :
    ((sqliteDb.insert_variable s v file_id class_id function_id).1).function_calls
      = s.function_calls := by
  by_cases h : s.connected <;> simp [sqliteDb, h]

/-- Persisting a parameter list never touches the FunctionCalls table. -/
theorem sqlite_params_foldl_preserves_calls (l : List ParameterInfo) (function_id : Nat) :
    ∀ s : SqliteState,
      ((l.foldl (fun st p => (sqliteDb.insert_parameter st function_id p).1) s)).function_calls
        = s.function_calls := by
  induction l with
  | nil => intro s; rfl
  | cons p rest ih =>
    intro s
    rw [List.foldl_cons, ih, sqlite_parameter_preserves_calls]

/-- Persisting a local-variable list never touches the FunctionCalls
table. -/
theorem sqlite_vars_foldl_preserves_calls (l : List VariableInfo) (function_id : Nat) :
    ∀ s : SqliteState,
      ((l.foldl (fun st v => (sqliteDb.insert_variable st v none none (some function_id)).1)
          s)).function_calls = s.function_calls := by
  induction l with
  | nil => intro s; rfl
  | cons v rest ih =>
    intro s
    rw [List.foldl_cons, ih, sqlite_variable_preserves_calls]

/-- Every row the call-edge loop adds carries line number -1. -/
theorem sqlite_calls_foldl_mem (l : List String) (function_id : Nat) :
    ∀ (s : SqliteState) (r : CallRow),
      r ∈ ((l.foldl (fun st c => (sqliteDb.insert_function_call st function_id c (-1)).1)
          s)).function_calls →
      r ∈ s.function_calls ∨ r.call_line_number = -1 := by
  induction l with
  | nil => intro s r h; exact Or.inl h
  | cons c rest ih =>
    intro s r h
    rw [List.foldl_cons] at h
    rcases ih _ r h with hmem | hline
    · by_cases hc : s.connected
      · simp only [sqliteDb, hc, Bool.not_true, Bool.false_eq_true, if_false] at hmem
        rcases List.mem_append.mp hmem with hmem | hr
        · exact Or.inl hmem
        · right
          simp only [List.mem_singleton] at hr
          rw [hr]
      · simp only [sqliteDb, hc, Bool.not_false, if_true] at hmem
        exact Or.inl hmem
    · exact Or.inr hline

/-- Claim C7 as amended.  Every FunctionCalls row present after a
function visit either predates the visit or carries the constant line
number -1: the source hands the literal -1 to insert_function_call for
every call edge, never the call's own line and never the function's
start line. -/
theorem C7_call_line_always_minus_one (cfg : Cfg) (s : SqliteState) (node : TSNode)
    (file_id : Nat) (class_id : Option Nat) (is_arrow : Bool) (r : CallRow)
    (h : r ∈ ((visit_function_definition cfg sqliteDb s node file_id class_id is_arrow).1).function_calls) :
    r ∈ s.function_calls ∨ r.call_line_number = -1 := by
  unfold visit_function_definition at h
  dsimp only [] at h
  repeat' split at h
  all_goals try exact Or.inl h
  all_goals try
    (rw [sqlite_function_preserves_calls] at h
     exact Or.inl h)
  all_goals
    (rcases sqlite_calls_foldl_mem _ _ _ r h with hmem | hline
     · rw [sqlite_vars_foldl_preserves_calls, sqlite_params_foldl_preserves_calls,
         sqlite_function_preserves_calls] at hmem
       exact Or.inl hmem
     · exact Or.inr hline)

/-- Witness for C2: removing the concrete method definition from between
two module-level assignments leaves module-level variable extraction
unchanged. -/
theorem C2_witness :
    (pyCfg.language = Lang.python) ∧
    ((pyFuncDef 1 2 "m" [] [pyAssignStmt 2 "y" "2"]).ty = "function_definition"
      ∨ (pyFuncDef 1 2 "m" [] [pyAssignStmt 2 "y" "2"]).ty = "class_definition") ∧
    (extractVarsLoop pyCfg true false false
        ([pyAssignStmt 0 "a" "1"] ++ pyFuncDef 1 2 "m" [] [pyAssignStmt 2 "y" "2"]
          :: [pyAssignStmt 3 "b" "3"]) []
      = extractVarsLoop pyCfg true false false
        ([pyAssignStmt 0 "a" "1"] ++ [pyAssignStmt 3 "b" "3"]) []) :=
  ⟨rfl, Or.inl rfl,
   C2_global_scope_skips_defs pyCfg false false (pyFuncDef 1 2 "m" [] [pyAssignStmt 2 "y" "2"])
     rfl (Or.inl rfl) [pyAssignStmt 0 "a" "1"] [pyAssignStmt 3 "b" "3"] []⟩

/-- A flat function body: two sibling redefinitions of x and one y. -/
def c3flat : TSNode :=
  pyBlock none 1 3 [pyAssignStmt 1 "x" "1", pyAssignStmt 2 "x" "2", pyAssignStmt 3 "y" "3"]

/-- Witness for C3: on the flat scope with sibling statements x = 1,
x = 2, y = 3 the produced names are pairwise distinct (the second x was
deduplicated away). -/
theorem C3_witness :
    (pyCfg.language = Lang.python) ∧
    (∀ ch ∈ c3flat.children, flatVarChild ch = true) ∧
    ((extract_variables pyCfg false false true c3flat).map (fun v => v.name)).Nodup :=
  ⟨rfl, by decide,
   C3_dedup_within_one_level pyCfg false false true c3flat rfl (by decide)⟩

/-- Module children for C4: a valid function f, an unparseable fragment,
and a valid function g. -/
def c4withErr : List TSNode :=
  [pyFuncDef 0 1 "f" [] []] ++ errNode 1 :: [pyFuncDef 2 3 "g" [] []]

/-- Witness for C4: on the concrete module holding f, a broken region and
g, the pass equals the pass on the module without the broken region, and
both valid functions come out. -/
theorem C4_witness :
    ((errNode 1).ty = "ERROR") ∧
    (run_extraction pyCfg sqliteDb sqlInit (TSNode.mk "module" true none 0 3 "<module>" c4withErr)
        "a.py" 1
      = run_extraction pyCfg sqliteDb sqlInit (TSNode.mk "module" true none 0 3 "<module>"
          ([pyFuncDef 0 1 "f" [] []] ++ [pyFuncDef 2 3 "g" [] []])) "a.py" 1) ∧
    ((run_extraction pyCfg sqliteDb sqlInit (TSNode.mk "module" true none 0 3 "<module>" c4withErr)
        "a.py" 1).2.functions.map (fun fi => fi.name) = ["f", "g"]) :=
  ⟨rfl,
   C4_error_node_isolated pyCfg sqliteDb sqlInit "module" true none 0 3 "<module>"
     [pyFuncDef 0 1 "f" [] []] [pyFuncDef 2 3 "g" [] []] (errNode 1) rfl "a.py" 1,
   by simp [run_extraction, extraction_step, arrow_decl_step, visit_function_definition,
     build_function_info, visit_class_definition, extract_variables, extractVarsLoop,
     directVars, recurseIntoVars, pyAssignVar, extract_parameters, paramOfChild,
     extract_function_calls, extractCallsLoop, dedupKeepFirst, pyDocstring, c4withErr, errNode,
     pyBlock, pyFuncDef, leafN, tokN, pyCfg, sqliteDb, sqlInit,
     TSNode.namedChild, TSNode.namedChildren, TSNode.childByField, get_node_text, valueAfterEq]⟩

/-- Witness for C5: against the concrete rejecting gateway, the visit of
foo returns None and the result of the extraction pass holds no functions
and no classes. -/
theorem C5_witness :
    (∀ (s file_id : Nat) (class_id : Option Nat) (fi : FunctionInfo),
      (rejectEntityDb.insert_function s file_id class_id fi).2 = none) ∧
    (∀ (s file_id : Nat) (ci : ClassInfo),
      (rejectEntityDb.insert_class s file_id ci).2 = none) ∧
    (((visit_function_definition pyCfg rejectEntityDb 0 (pyFuncDef 0 1 "foo" [] [])
        1 none false).2 = none) ∧
     ((visit_class_definition pyCfg rejectEntityDb 0 (pyFuncDef 0 1 "foo" [] []) 1).2 = none) ∧
     ((run_extraction pyCfg rejectEntityDb 0 c5root "a.py" 1).2.functions = []) ∧
     ((run_extraction pyCfg rejectEntityDb 0 c5root "a.py" 1).2.classes = [])) :=
  ⟨fun _ _ _ _ => rfl, fun _ _ _ => rfl,
   C5_insert_failure_drops_both pyCfg rejectEntityDb (fun _ _ _ _ => rfl) (fun _ _ _ => rfl)
     0 (pyFuncDef 0 1 "foo" [] []) c5root 1 none false "a.py"⟩

/-- Witness for C7: the one call-edge row persisted for the concrete
function foo carries line number -1. -/
theorem C7_witness :
    ((⟨1, 1, "bar", -1⟩ : CallRow) ∈
      ((visit_function_definition pyCfg sqliteDb sqlInit c7func 1 none false).1).function_calls) ∧
    ((⟨1, 1, "bar", -1⟩ : CallRow) ∈ sqlInit.function_calls
      ∨ (⟨1, 1, "bar", -1⟩ : CallRow).call_line_number = -1) :=
  ⟨by simp [visit_function_definition, build_function_info, extract_variables, extractVarsLoop,
      directVars, recurseIntoVars, pyAssignVar, extract_parameters, paramOfChild,
      extract_function_calls, extractCallsLoop, dedupKeepFirst, pyDocstring, c7func,
      pyBlock, pyCallStmt, pyFuncDef, leafN, tokN, pyCfg, sqliteDb, sqlInit,
      TSNode.namedChild, TSNode.namedChildren, TSNode.childByField, get_node_text, valueAfterEq],
   C7_call_line_always_minus_one pyCfg sqlInit c7func 1 none false ⟨1, 1, "bar", -1⟩
    (by simp [visit_function_definition, build_function_info, extract_variables, extractVarsLoop,
      directVars, recurseIntoVars, pyAssignVar, extract_parameters, paramOfChild,
      extract_function_calls, extractCallsLoop, dedupKeepFirst, pyDocstring, c7func,
      pyBlock, pyCallStmt, pyFuncDef, leafN, tokN, pyCfg, sqliteDb, sqlInit,
      TSNode.namedChild, TSNode.namedChildren, TSNode.childByField, get_node_text, valueAfterEq])⟩
